import Mathlib

/-!
Verification of the ani_lumina bot's cache, API-client and pagination design
against its source (src/cache.py, src/mal_client.py, src/bot.py).

Python values are modelled by the inductive `PyVal` (with `PyVal.none` for
Python's `None`), the cache's dict by an association list threaded explicitly,
and `time.time()` by an explicit natural-number clock argument.
-/

set_option maxHeartbeats 1000000

namespace AniLumina

/-- Model of the Python values the code manipulates (JSON-decoded responses,
cached values).  `PyVal.none` is Python's `None`. -/
inductive PyVal where
  | none
  | pyBool (b : Bool)
  | pyInt (n : Int)
  | pyStr (s : String)
  | pyList (xs : List PyVal)
  | pyDict (fields : List (String × PyVal))

/-- Python's `x is None` test. -/
def PyVal.isNone : PyVal → Bool
  | .none => true
  | _ => false

/-- Python truthiness (`bool(x)`): `None`, `0`, `""`, `[]`, and the empty dict
are falsy, everything else truthy. -/
def PyVal.truthy : PyVal → Bool
  | .none => false
  | .pyBool b => b
  | .pyInt n => n != 0
  | .pyStr s => s != ""
  | .pyList xs => !xs.isEmpty
  | .pyDict fs => !fs.isEmpty

/-- Python `isinstance(x, dict)`. -/
def PyVal.isDict : PyVal → Bool
  | .pyDict _ => true
  | _ => false

/-- Python `d.get(k)` (returns `None` when the key is missing; the code only
applies it to dicts). -/
def PyVal.getKey : PyVal → String → PyVal
  | .pyDict fs, k =>
    match fs.find? (fun e => e.1 == k) with
    | Option.some e => e.2
    | Option.none => PyVal.none
  | _, _ => PyVal.none

/-- Python `d.get(k, default)`. -/
def PyVal.getKeyD (v : PyVal) (k : String) (d : PyVal) : PyVal :=
  match v with
  | .pyDict fs =>
    match fs.find? (fun e => e.1 == k) with
    | Option.some e => e.2
    | Option.none => d
  | _ => d

/-- Python `a or b` on values: returns `a` when truthy, else `b`. -/
def pyOr (a b : PyVal) : PyVal := if a.truthy then a else b

/-- Python `a and b` on values: returns `b` when `a` is truthy, else `a`. -/
def pyAnd (a b : PyVal) : PyVal := if a.truthy then b else a

/-- Python `xs[0]` on the code paths modelled (a decoded JSON array; the code
only indexes after a truthiness guard, so the list is non-empty there). -/
def pyIndex0 : PyVal → PyVal
  | .pyList (x :: _) => x
  | _ => PyVal.none

/-!
## src/cache.py — `TTLCache`

`self._store: Dict[str, Tuple[float, Any]]` is modelled as an association
list from key to `(expires_at, value)`; `dict` assignment and `pop` become
cons-after-erase and erase, which have the same lookup semantics.  The store
is threaded explicitly through `get`/`set` (the `asyncio.Lock` serializes the
real calls, so the sequential functional model is faithful).
-/

/-- A cache store: key ↦ (expires_at, value).  `expires_at = 0` is the code's
sentinel for "no expiry" (`exp = time.time() + ttl if ttl else 0`). -/
abbrev Store := List (String × Nat × PyVal)

/-- Dict lookup (`self._store.get(key)`). -/
def storeLookup (s : Store) (key : String) : Option (Nat × PyVal) :=
  match s with
  | [] => Option.none
  | e :: t => if e.1 = key then Option.some e.2 else storeLookup t key

/-- Dict removal (`self._store.pop(key, None)`). -/
def storePop (s : Store) (key : String) : Store :=
  match s with
  | [] => []
  | e :: t => if e.1 = key then storePop t key else e :: storePop t key

/-- The expiry timestamp computed by `TTLCache.set`:
`exp = time.time() + ttl if ttl else 0`. -/
def expOf (now ttl : Nat) : Nat :=
  if ttl ≠ 0 then now + ttl else 0

/-- `TTLCache.get(key)`: returns the stored value if present and not expired;
an entry with a non-zero expiry in the past is popped and `None` returned
(`if exp and exp < time.time()`).  Returns the (possibly purged) store. -/
def TTLCache.get (now : Nat) (s : Store) (key : String) : PyVal × Store :=
  match storeLookup s key with
  | Option.none => (PyVal.none, s)
  | Option.some (exp, val) =>
    if exp ≠ 0 ∧ exp < now then (PyVal.none, storePop s key) else (val, s)

/-- `TTLCache.set(key, value, ttl)`: stores `(exp, value)` under `key`,
overwriting any existing entry (`self._store[key] = (exp, value)`). -/
def TTLCache.set (now : Nat) (s : Store) (key : String) (value : PyVal) (ttl : Nat) : Store :=
  (key, expOf now ttl, value) :: storePop s key

/-- Modelled from the spec: `clear() -> ()` ("drops all entries") is listed in
the spec's TTL Cache contract but the `TTLCache` class in src/cache.py defines
only `get` and `set`; the variant carrying `clear` is not under src/. -/
def TTLCache.clear (_s : Store) : Store := []

/-- State threaded through a function wrapped by `aiorun_cached`: the global
`CACHE` store plus a count of how many times the wrapped `func` has actually
been invoked. -/
structure CachedCallState where
  cache : Store
  invocations : Nat

/-- One call of the `inner` closure produced by `aiorun_cached(ttl)`:
`key = f"{func.__name__}|{args}|{sorted(kwargs.items())}"` (here `argsRepr`
stands for the stringified args-and-kwargs part); a cached value that
`is not None` is returned, otherwise `func` runs and its result is cached. -/
def aiorunCachedCall (ttl : Nat) (funcName argsRepr : String)
    (func : Unit → PyVal) (now : Nat) (st : CachedCallState) : PyVal × CachedCallState :=
  let key := funcName ++ "|" ++ argsRepr
  let got := TTLCache.get now st.cache key
  if !got.1.isNone then (got.1, { st with cache := got.2 })
  else
    let result := func ()
    (result, { cache := TTLCache.set now got.2 key result ttl,
               invocations := st.invocations + 1 })

/-- One recorded write for the last-write-wins property: a `set(key, value, ttl)`
call issued at time `now`. -/
structure CacheWrite where
  now : Nat
  key : String
  value : PyVal
  ttl : Nat

/-- Apply a sequence of serialized `TTLCache.set` calls (the `asyncio.Lock`
serializes concurrent writers into some interleaving order). -/
def applyWrites (s : Store) (ws : List CacheWrite) : Store :=
  ws.foldl (fun acc w => TTLCache.set w.now acc w.key w.value w.ttl) s

/-- The last write to `key` in a sequence of writes, if any. -/
def lastWriteTo (ws : List CacheWrite) (key : String) : Option CacheWrite :=
  match ws with
  | [] => Option.none
  | w :: rest =>
    match lastWriteTo rest key with
    | Option.some r => Option.some r
    | Option.none => if w.key = key then Option.some w else Option.none

/-!
## Pagination Session state machine

Modelled from the spec: the Pagination Session component (spec §4.3) is not
present under src/ (bot.py sends each result as a separate message and holds
no session state); the repository's variants carrying it are outside src/.
-/

/-- Modelled from the spec: a navigation event, "advance" or "retreat". -/
inductive NavEvent where
  | next
  | prev
  deriving DecidableEq

/-- Modelled from the spec: session states are `Active(current_index)` and the
terminal `Expired`. -/
inductive SessionState where
  | active (currentIndex : Nat)
  | expired
  deriving DecidableEq

/-- Modelled from the spec: a pagination session holds the pages (only their
count matters to the transitions), the current state, the time of the last
transition (`created_at`, reset on every successful Next/Prev), and the idle
ttl. -/
structure PaginationSession where
  numPages : Nat
  state : SessionState
  lastActivity : Nat
  ttl : Nat
  deriving DecidableEq

/-- Modelled from the spec: a `Next`/`Prev` event at time `now`.  In `Active`,
`Next` sets `current_index = min(current_index+1, len(pages)-1)` and `Prev`
sets `current_index = max(current_index-1, 0)` (clamping, no error at either
boundary), resets the idle timer, and re-renders (the returned flag).  On an
`Expired` session the event is a no-op: state unchanged, no re-render. -/
def PaginationSession.applyNav (now : Nat) (s : PaginationSession) (e : NavEvent) :
    PaginationSession × Bool :=
  match s.state with
  | .expired => (s, false)
  | .active i =>
    let j := match e with
      | .next => min (i + 1) (s.numPages - 1)
      | .prev => max (i - 1) 0
    ({ s with state := .active j, lastActivity := now }, true)

/-- Modelled from the spec: the `Timeout` transition fires once more than
`ttl` has passed since the last transition: `Active -> Expired`, terminal. -/
def PaginationSession.timeout (now : Nat) (s : PaginationSession) : PaginationSession :=
  match s.state with
  | .active _ => if s.lastActivity + s.ttl < now then { s with state := .expired } else s
  | .expired => s

/-- Fold a sequence of timestamped navigation events over a session. -/
def PaginationSession.applyAll (s : PaginationSession) :
    List (Nat × NavEvent) → PaginationSession
  | [] => s
  | e :: rest => PaginationSession.applyAll (s.applyNav e.1 e.2).1 rest

/-- The index invariant: an active index stays at most `numPages - 1`. -/
def PaginationSession.inRange (s : PaginationSession) : Prop :=
  match s.state with
  | .active i => i ≤ s.numPages - 1
  | .expired => True

/-!
## src/mal_client.py — `MALClient`

The HTTP layer is modelled by an `Upstream` oracle mapping (url, params) to
(status code, decoded JSON body); the client's per-instance `AsyncTTLCache`
and the list of HTTP requests actually issued are threaded as `ClientState`.
`mal_client.py` imports `AsyncTTLCache` from `cache`, but src/cache.py
defines only `TTLCache`; the `AsyncTTLCache` variant is not under src/ and
is modelled from the spec below.
-/

/-- A crude `str()` of a value, standing in for Python string conversion where
the code interpolates values into strings. -/
def pyText : PyVal → String
  | .none => "None"
  | .pyBool b => if b then "True" else "False"
  | .pyInt n => toString n
  | .pyStr s => s
  | .pyList _ => "[...]"
  | .pyDict _ => "\x7b...\x7d"

/-- Modelled from the spec: `AsyncTTLCache.get` — "returns the stored value if
present and not expired; otherwise returns absent and must also purge the
stale entry" (an entry is visible only while `now < expires_at`).  Python's
absent is `None`, which is what `_get`'s `is not None` test sees. -/
def AsyncTTLCache.get (now : Nat) (s : Store) (key : String) : PyVal × Store :=
  match storeLookup s key with
  | Option.none => (PyVal.none, s)
  | Option.some (exp, val) => if now < exp then (val, s) else (PyVal.none, storePop s key)

/-- Modelled from the spec: `AsyncTTLCache.set` with the instance's default
ttl (`self._cache.set(cache_key, data)` passes no ttl) — "stores value with
`expires_at = now + ttl`; overwrites any existing entry unconditionally". -/
def AsyncTTLCache.set (now defaultTtl : Nat) (s : Store) (key : String) (v : PyVal) : Store :=
  (key, now + defaultTtl, v) :: storePop s key

/-- The upstream API: status code and decoded JSON body per (url, params). -/
abbrev Upstream := String → List (String × String) → Nat × PyVal

/-- The exception raised by `_get` on a non-200/204 response
(`aiohttp.ClientResponseError(status=..., message=f"Bad response ...")`). -/
structure ClientResponseError where
  status : Nat
  message : String

/-- The configuration of one `MALClient` instance. -/
structure MALClient where
  baseUrl : String
  defaultTtl : Nat

/-- Client-side state: the instance's response cache and the log of HTTP
requests actually issued to the upstream. -/
structure ClientState where
  cache : Store
  calls : List (String × List (String × String))

/-- Python's `f"{params}"` on the params dict, as used in the cache key: a
deterministic repr of the key/value pairs in insertion order. -/
def paramsRepr (ps : List (String × String)) : String :=
  "\x7b" ++
    String.intercalate ", "
      (ps.map (fun p => "'" ++ p.1 ++ "': '" ++ p.2 ++ "'")) ++
  "\x7d"

/-- The cache key `_get` builds: `f"GET:{url}:{params}"`. -/
def requestCacheKey (url : String) (params : List (String × String)) : String :=
  "GET:" ++ url ++ ":" ++ paramsRepr params

/-- `MALClient._get(path, params)`: read-through cache, then HTTP GET.
A 200 response is cached and returned; 204 returns `None` uncached; any
other status raises `ClientResponseError` (modelled as `Except.error`). -/
def MALClient.getReq (c : MALClient) (upstream : Upstream) (now : Nat)
    (st : ClientState) (path : String) (params : List (String × String)) :
    Except ClientResponseError PyVal × ClientState :=
  let url := c.baseUrl ++ path
  let key := requestCacheKey url params
  let got := AsyncTTLCache.get now st.cache key
  if !got.1.isNone then (Except.ok got.1, { st with cache := got.2 })
  else
    let calls1 := st.calls ++ [(url, params)]
    let resp := upstream url params
    if resp.1 = 200 then
      (Except.ok resp.2,
       { cache := AsyncTTLCache.set now c.defaultTtl got.2 key resp.2, calls := calls1 })
    else if resp.1 = 204 then
      (Except.ok PyVal.none, { cache := got.2, calls := calls1 })
    else
      (Except.error
         ⟨resp.1, "Bad response (" ++ toString resp.1 ++ "): " ++ pyText resp.2⟩,
       { cache := got.2, calls := calls1 })

/-- `MALClient.search(kind, query, limit, offset, fields)`: note the limit is
passed through to the upstream request unmodified (`"limit": str(limit)`). -/
def MALClient.search (c : MALClient) (upstream : Upstream) (now : Nat)
    (st : ClientState) (kind query : String) (limit offset : Int) (fields : String) :
    Except ClientResponseError PyVal × ClientState :=
  c.getReq upstream now st ("/" ++ kind)
    [("q", query), ("limit", toString limit), ("offset", toString offset),
     ("fields", fields)]

/-- The numeric-identifier test in `info`:
`isinstance(identifier, int) or (isinstance(identifier, str) and identifier.isdigit())`,
returning `int(identifier)`. -/
def digitsToNat (cs : List Char) : Nat :=
  cs.foldl (fun acc c => acc * 10 + (c.toNat - 48)) 0

def identNumeric : PyVal → Option Int
  | .pyInt n => Option.some n
  | .pyStr s =>
    if s.data ≠ [] ∧ s.data.all Char.isDigit then
      Option.some (Int.ofNat (digitsToNat s.data))
    else Option.none
  | _ => Option.none

/-- The string handed to `search` when `info` falls back to name resolution
(the identifier itself on the string path the code exercises). -/
def pyQueryStr : PyVal → String
  | .pyStr s => s
  | v => pyText v

/-- `MALClient.info(identifier, kind, fields)`: a numeric identifier fetches
`/{kind}/{id}` directly; otherwise search with `limit=1`, extract the first
hit's id (`node = first.get("node") or first.get("id") and first`, then
`node.get("id") or node.get("node", {}).get("id")` when `node` is a dict,
else `first.get("id")`), and recurse on it.  The `fuel` argument bounds the
recursion depth (Python relies on the interpreter's recursion limit; every
theorem below supplies enough fuel for the depth actually reached). -/
def MALClient.info (c : MALClient) (upstream : Upstream) (now : Nat) :
    Nat → ClientState → PyVal → String → String →
    Except ClientResponseError PyVal × ClientState
  | 0, st, _, _, _ => (Except.ok (PyVal.pyDict []), st)
  | Nat.succ fuel, st, identifier, kind, fields =>
    match identNumeric identifier with
    | Option.some itemId =>
      c.getReq upstream now st ("/" ++ kind ++ "/" ++ toString itemId)
        [("fields", fields)]
    | Option.none =>
      match c.search upstream now st kind (pyQueryStr identifier) 1 0 fields with
      | (Except.error e, st1) => (Except.error e, st1)
      | (Except.ok searchRes, st1) =>
        if !searchRes.truthy then (Except.ok (PyVal.pyDict []), st1)
        else if searchRes.isDict && (searchRes.getKey "data").truthy then
          let first := pyIndex0 (searchRes.getKey "data")
          let node := pyOr (first.getKey "node") (pyAnd (first.getKey "id") first)
          let itemId :=
            if node.isDict then
              pyOr (node.getKey "id") ((node.getKeyD "node" (PyVal.pyDict [])).getKey "id")
            else first.getKey "id"
          if itemId.truthy then c.info upstream now fuel st1 itemId kind fields
          else (Except.ok (PyVal.pyDict []), st1)
        else (Except.ok (PyVal.pyDict []), st1)

/-!
## src/bot.py — command-handler behavior relevant to the claims
-/

/-- `safe_mal_call`: `try: return await coro / except Exception: ...
return None` — every raised error, of any kind, becomes `None` at the
command-handler boundary (plus a uniform friendly error embed). -/
def safeMalCall : Except ClientResponseError PyVal → Option PyVal
  | Except.ok v => Option.some v
  | Except.error _ => Option.none

/-- Python truthiness of `MAL_CLIENT_ID` (`os.getenv` result): `if not
MAL_CLIENT_ID` is taken when the variable is unset or empty. -/
def credTruthy : Option String → Bool
  | Option.none => false
  | Option.some s => s != ""

/-- The first externally visible action a command handler takes. -/
inductive BotAction where
  | configErrorMsg (text : String)
  | upstreamAttempt (path : String)
  deriving DecidableEq

/-- The `/anime` handler's gate: it checks `if not MAL_CLIENT_ID` and answers
with a configuration error before any client call; otherwise it proceeds to
`client.search_anime`, i.e. an upstream request on `/anime`. -/
def animeCommandAction (malClientId : Option String) : BotAction :=
  if credTruthy malClientId then BotAction.upstreamAttempt "/anime"
  else BotAction.configErrorMsg "MAL_CLIENT_ID not configured. Add it to your .env."

/-- The `/manga` handler's gate, same structure as `/anime`. -/
def mangaCommandAction (malClientId : Option String) : BotAction :=
  if credTruthy malClientId then BotAction.upstreamAttempt "/manga"
  else BotAction.configErrorMsg "MAL_CLIENT_ID not configured."

/-- The `/top` handler: it performs no credential check at all and goes
straight to `client.top(kind=kind, limit=limit)` — an upstream request on
`/{kind}/ranking` — whatever the credential is. -/
def topCommandAction (_malClientId : Option String) (kind : String) : BotAction :=
  BotAction.upstreamAttempt ("/" ++ kind ++ "/ranking")

/-- The limit clamp used by the anime/manga/top/trending/season/nextseason
handlers: `limit = max(1, min(15, limit if limit is not None else default))`. -/
def botClampLimit (limit : Option Int) (dflt : Int) : Int :=
  max 1 (min 15 (limit.getD dflt))

/-- The upstream search response shape assumed by C2's hypotheses (the MAL v2
envelope: items wrapped in a `node` carrying the id). -/
def searchEnvelope (id : Int) : PyVal :=
  PyVal.pyDict
    [("data", PyVal.pyList [PyVal.pyDict [("node", PyVal.pyDict [("id", PyVal.pyInt id)])]])]

/-! ## Theorems -/

/-! Helper lemmas about the store. -/

theorem storeLookup_cons_self (e : Nat × PyVal) (k : String) (t : Store) :
    storeLookup ((k, e) :: t) k = Option.some e := by
  simp [storeLookup]

theorem storeLookup_storePop_self (s : Store) (k : String) :
    storeLookup (storePop s k) k = Option.none := by
  induction s with
  | nil => rfl
  | cons a t ih =>
    by_cases h : a.1 = k
    · simpa [storePop, h] using ih
    · simpa [storePop, storeLookup, h] using ih

theorem storeLookup_storePop_ne (s : Store) (k k' : String) (h : k ≠ k') :
    storeLookup (storePop s k') k = storeLookup s k := by
  induction s with
  | nil => rfl
  | cons a t ih =>
    by_cases ha : a.1 = k'
    · have hak : a.1 ≠ k := fun hk => h (by rw [← hk, ha])
      rw [storePop, if_pos ha, ih, storeLookup, if_neg hak]
    · rw [storePop, if_neg ha, storeLookup, storeLookup]
      by_cases hak : a.1 = k
      · rw [if_pos hak, if_pos hak]
      · rw [if_neg hak, if_neg hak, ih]

theorem storeLookup_set (s : Store) (key k : String) (v : PyVal) (n t : Nat) :
    storeLookup (TTLCache.set n s key v t) k =
      if k = key then Option.some (expOf n t, v) else storeLookup s k := by
  by_cases h : k = key
  · subst h
    simp [TTLCache.set, storeLookup]
  · have hk : key ≠ k := fun hk => h hk.symm
    rw [TTLCache.set, storeLookup, if_neg hk, if_neg h]
    exact storeLookup_storePop_ne s k key h

theorem aiorunCachedCall_miss (ttl : Nat) (fn ar : String) (func : Unit → PyVal)
    (now : Nat) (st : CachedCallState)
    (h : (TTLCache.get now st.cache (fn ++ "|" ++ ar)).1 = PyVal.none) :
    aiorunCachedCall ttl fn ar func now st
      = (func (),
         { cache := TTLCache.set now (TTLCache.get now st.cache (fn ++ "|" ++ ar)).2
             (fn ++ "|" ++ ar) (func ()) ttl,
           invocations := st.invocations + 1 }) := by
  simp only [aiorunCachedCall, h, PyVal.isNone, Bool.not_true, Bool.false_eq_true,
    if_false]

theorem get_fst_of_set_none (c : Store) (now n0 ttl : Nat) (k : String) :
    (TTLCache.get now (TTLCache.set n0 c k PyVal.none ttl) k).1 = PyVal.none := by
  have h1 : storeLookup (TTLCache.set n0 c k PyVal.none ttl) k
      = Option.some (expOf n0 ttl, PyVal.none) := by
    rw [storeLookup_set, if_pos rfl]
  simp only [TTLCache.get, h1]
  split <;> rfl

theorem applyWrites_lookup (ws : List CacheWrite) (s : Store) (k : String) :
    storeLookup (applyWrites s ws) k =
      (match lastWriteTo ws k with
       | Option.some w => Option.some (expOf w.now w.ttl, w.value)
       | Option.none => storeLookup s k) := by
  induction ws generalizing s with
  | nil => rfl
  | cons w rest ih =>
    rw [applyWrites, List.foldl_cons]
    have step : storeLookup (applyWrites (TTLCache.set w.now s w.key w.value w.ttl) rest) k =
        (match lastWriteTo rest k with
         | Option.some r => Option.some (expOf r.now r.ttl, r.value)
         | Option.none => storeLookup (TTLCache.set w.now s w.key w.value w.ttl) k) := ih _
    rw [lastWriteTo]
    cases hcase : lastWriteTo rest k with
    | some r =>
      rw [applyWrites] at step
      rw [step, hcase]
    | none =>
      rw [applyWrites] at step
      rw [step, hcase, storeLookup_set]
      by_cases hk : w.key = k
      · rw [if_pos hk, if_pos hk.symm]
      · rw [if_neg hk, if_neg (fun hc => hk hc.symm)]

/-! ## Claim theorems about the cache -/

/-- C1 (amended): for every key, value and **positive** ttl, after
`set(key, value, ttl)` at time `n0`, `get(key)` returns the value (leaving the
store untouched) while the ttl has not elapsed (`n1 ≤ n0 + ttl`); once the ttl
has elapsed (`n0 + ttl < n1`), `get` returns absent, purges the stale entry,
and a subsequent `get` still finds it absent (no resurrection), so `get`
never returns a value whose `expires_at` has passed.  (For `ttl = 0` the code
stores the no-expiry sentinel `0` instead of `now + ttl`, so such an entry
never expires; see the counterexample.) -/
theorem cache_expiry_c1 (c : Store) (k : String) (v : PyVal) (ttl n0 n1 n2 : Nat)
    (httl : 0 < ttl) :
    (n1 ≤ n0 + ttl →
      TTLCache.get n1 (TTLCache.set n0 c k v ttl) k = (v, TTLCache.set n0 c k v ttl)) ∧
    (n0 + ttl < n1 →
      (TTLCache.get n1 (TTLCache.set n0 c k v ttl) k).1 = PyVal.none ∧
      (TTLCache.get n2 (TTLCache.get n1 (TTLCache.set n0 c k v ttl) k).2 k).1
        = PyVal.none) := by
  have hne : ttl ≠ 0 := Nat.pos_iff_ne_zero.mp httl
  have hl : storeLookup (TTLCache.set n0 c k v ttl) k = Option.some (n0 + ttl, v) := by
    rw [storeLookup_set, if_pos rfl, expOf, if_pos hne]
  constructor
  · intro h1
    simp only [TTLCache.get, hl]
    rw [if_neg (by omega : ¬(n0 + ttl ≠ 0 ∧ n0 + ttl < n1))]
  · intro h1
    have hget : TTLCache.get n1 (TTLCache.set n0 c k v ttl) k
        = (PyVal.none, storePop (TTLCache.set n0 c k v ttl) k) := by
      simp only [TTLCache.get, hl]
      rw [if_pos ⟨by omega, h1⟩]
    refine ⟨by rw [hget], ?_⟩
    rw [hget]
    simp only [TTLCache.get, storeLookup_storePop_self]

/-- C1 counterexample: with `ttl = 0` the ttl has certainly elapsed by time
100 (the entry was set at time 5), yet `get` still returns the stored value
instead of absent — `exp = time.time() + ttl if ttl else 0` makes `ttl = 0` a
no-expiry sentinel, refuting the claim as universally quantified over ttl. -/
theorem cache_expiry_c1_counterexample :
    (5 : Nat) + 0 < 100 ∧
    (TTLCache.get 100 (TTLCache.set 5 [] "k" (PyVal.pyStr "v") 0) "k").1
      = PyVal.pyStr "v" := by
  exact ⟨by omega, rfl⟩

theorem cache_expiry_c1_witness :
    (0 : Nat) < 10 ∧
    TTLCache.get 3 (TTLCache.set 0 [] "k" (PyVal.pyStr "v") 10) "k"
      = (PyVal.pyStr "v", TTLCache.set 0 [] "k" (PyVal.pyStr "v") 10) ∧
    (TTLCache.get 11 (TTLCache.set 0 [] "k" (PyVal.pyStr "v") 10) "k").1
      = PyVal.none := by
  refine ⟨by omega, ?_, ?_⟩
  · exact (cache_expiry_c1 [] "k" (PyVal.pyStr "v") 10 0 3 0 (by omega)).1 (by omega)
  · exact ((cache_expiry_c1 [] "k" (PyVal.pyStr "v") 10 0 11 0 (by omega)).2 (by omega)).1

/-- C7 (amended): `set(key, value, ttl)` with positive ttl stores the value
with `expires_at = now + ttl`, unconditionally overwriting any existing entry
(for `ttl = 0` the stored expiry is the sentinel `0`, not `now + 0`); and for
any serialized interleaving of `set` calls, each key's final entry is exactly
its last writer's (last write wins, no lost update). -/
theorem cache_last_write_wins_c7 (s : Store) (k : String) (v : PyVal) (now ttl : Nat)
    (httl : 0 < ttl) (ws : List CacheWrite) :
    storeLookup (TTLCache.set now s k v ttl) k = Option.some (now + ttl, v) ∧
    storeLookup (applyWrites s ws) k =
      (match lastWriteTo ws k with
       | Option.some w => Option.some (expOf w.now w.ttl, w.value)
       | Option.none => storeLookup s k) := by
  constructor
  · rw [storeLookup_set, if_pos rfl, expOf, if_pos (Nat.pos_iff_ne_zero.mp httl)]
  · exact applyWrites_lookup ws s k

/-- C7 counterexample: `set("k", v, 0)` at time 5 stores `expires_at = 0`,
not `now + ttl = 5`, and the entry is still served at time 1000, long after
the claimed `expires_at` has passed — refuting `expires_at = now + ttl` as
universally quantified over ttl. -/
theorem cache_last_write_wins_c7_counterexample :
    storeLookup (TTLCache.set 5 [] "k" (PyVal.pyStr "v") 0) "k"
      = Option.some (0, PyVal.pyStr "v") ∧
    (0 : Nat) ≠ 5 + 0 ∧
    (TTLCache.get 1000 (TTLCache.set 5 [] "k" (PyVal.pyStr "v") 0) "k").1
      = PyVal.pyStr "v" := by
  exact ⟨rfl, by omega, rfl⟩

theorem cache_last_write_wins_c7_witness :
    (0 : Nat) < 10 ∧
    storeLookup (TTLCache.set 7 [] "k" (PyVal.pyInt 1) 10) "k"
      = Option.some (17, PyVal.pyInt 1) ∧
    storeLookup
        (applyWrites []
          [⟨1, "a", PyVal.pyInt 1, 10⟩, ⟨2, "b", PyVal.pyInt 7, 10⟩,
           ⟨3, "a", PyVal.pyInt 2, 20⟩]) "a"
      = Option.some (23, PyVal.pyInt 2) := by
  have h := cache_last_write_wins_c7 [] "k" (PyVal.pyInt 1) 7 10 (by omega) []
  have h2 := cache_last_write_wins_c7 [] "a" (PyVal.pyInt 1) 7 10 (by omega)
    [⟨1, "a", PyVal.pyInt 1, 10⟩, ⟨2, "b", PyVal.pyInt 7, 10⟩,
     ⟨3, "a", PyVal.pyInt 2, 20⟩]
  refine ⟨by omega, h.1, ?_⟩
  rw [h2.2]
  rfl

/-- C9: after `clear()` (modelled from the spec, absent from src/cache.py),
`get(key)` returns absent for every key, in particular every key previously
stored. -/
theorem cache_clear_c9 (s : Store) (k : String) (now : Nat) :
    TTLCache.get now (TTLCache.clear s) k = (PyVal.none, TTLCache.clear s) := rfl

/-- C10: `TTLCache.get` cannot distinguish a stored `None` from an absent key
(both read as `None`), so a function wrapped by `aiorun_cached` whose cached
lookup yields `None` is re-invoked and the entry re-written on every call —
a `None` result is never served from the cache, even within its ttl. -/
theorem cache_none_opaque_c10 (c : Store) (k fn ar : String)
    (ttl n0 now now1 now2 : Nat) (st : CachedCallState)
    (h : (TTLCache.get now1 st.cache (fn ++ "|" ++ ar)).1 = PyVal.none) :
    (TTLCache.get now (TTLCache.set n0 c k PyVal.none ttl) k).1 = PyVal.none ∧
    (TTLCache.get now (storePop c k) k).1 = PyVal.none ∧
    (aiorunCachedCall ttl fn ar (fun _ => PyVal.none) now1 st).1 = PyVal.none ∧
    (aiorunCachedCall ttl fn ar (fun _ => PyVal.none) now1 st).2.invocations
      = st.invocations + 1 ∧
    (aiorunCachedCall ttl fn ar (fun _ => PyVal.none) now2
        (aiorunCachedCall ttl fn ar (fun _ => PyVal.none) now1 st).2).2.invocations
      = st.invocations + 2 := by
  have hcall1 := aiorunCachedCall_miss ttl fn ar (fun _ => PyVal.none) now1 st h
  have h2 : (TTLCache.get now2
      (aiorunCachedCall ttl fn ar (fun _ => PyVal.none) now1 st).2.cache
      (fn ++ "|" ++ ar)).1 = PyVal.none := by
    rw [hcall1]
    exact get_fst_of_set_none _ _ _ _ _
  have hcall2 := aiorunCachedCall_miss ttl fn ar (fun _ => PyVal.none) now2
    (aiorunCachedCall ttl fn ar (fun _ => PyVal.none) now1 st).2 h2
  refine ⟨get_fst_of_set_none c now n0 ttl k, ?_, by rw [hcall1], by rw [hcall1], ?_⟩
  · simp only [TTLCache.get, storeLookup_storePop_self]
  · rw [hcall2, hcall1]

theorem cache_none_opaque_c10_witness :
    (TTLCache.get 0 ([] : Store) ("f" ++ "|" ++ "()")).1 = PyVal.none ∧
    (aiorunCachedCall 60 "f" "()" (fun _ => PyVal.none) 1
        (aiorunCachedCall 60 "f" "()" (fun _ => PyVal.none) 0
          ⟨[], 0⟩).2).2.invocations = 2 := by
  refine ⟨rfl, ?_⟩
  have h := cache_none_opaque_c10 [] "k" "f" "()" 60 0 0 0 1 ⟨[], 0⟩ rfl
  exact h.2.2.2.2

theorem applyNav_numPages (now : Nat) (s : PaginationSession) (e : NavEvent) :
    (s.applyNav now e).1.numPages = s.numPages := by
  rw [PaginationSession.applyNav]
  cases hs : s.state <;> simp

theorem applyAll_numPages (l : List (Nat × NavEvent)) (s : PaginationSession) :
    (s.applyAll l).numPages = s.numPages := by
  induction l generalizing s with
  | nil => rfl
  | cons e rest ih => rw [PaginationSession.applyAll, ih, applyNav_numPages]

theorem applyAll_inRange (l : List (Nat × NavEvent)) (N la ttl : Nat)
    (st : SessionState) (hs : (⟨N, st, la, ttl⟩ : PaginationSession).inRange) :
    (PaginationSession.applyAll ⟨N, st, la, ttl⟩ l).inRange := by
  induction l generalizing st la with
  | nil => exact hs
  | cons e rest ih =>
    rw [PaginationSession.applyAll]
    cases st with
    | expired => exact ih la .expired hs
    | active i =>
      have hi : i ≤ N - 1 := hs
      cases he : e.2 with
      | next =>
        refine ih e.1 (.active (min (i + 1) (N - 1))) ?_
        show min (i + 1) (N - 1) ≤ N - 1
        omega
      | prev =>
        refine ih e.1 (.active (max (i - 1) 0)) ?_
        show max (i - 1) 0 ≤ N - 1
        omega

theorem applyAll_replicate_next (N now ttl : Nat) (k : Nat) :
    ∀ i la, i ≤ N - 1 →
      (PaginationSession.applyAll ⟨N, .active i, la, ttl⟩
        (List.replicate k (now, NavEvent.next))).state
      = .active (min (i + k) (N - 1)) := by
  induction k with
  | zero =>
    intro i la hi
    simp only [List.replicate, PaginationSession.applyAll]
    congr 1
    omega
  | succ m ih =>
    intro i la hi
    rw [List.replicate_succ, PaginationSession.applyAll]
    have hstep : (PaginationSession.applyNav now ⟨N, .active i, la, ttl⟩ .next).1
        = ⟨N, .active (min (i + 1) (N - 1)), now, ttl⟩ := rfl
    rw [hstep, ih (min (i + 1) (N - 1)) now (by omega)]
    congr 1
    omega

theorem applyAll_replicate_prev (N now ttl : Nat) (k : Nat) :
    ∀ i la,
      (PaginationSession.applyAll ⟨N, .active i, la, ttl⟩
        (List.replicate k (now, NavEvent.prev))).state
      = .active (i - k) := by
  induction k with
  | zero =>
    intro i la
    simp only [List.replicate, PaginationSession.applyAll]
    congr 1
  | succ m ih =>
    intro i la
    rw [List.replicate_succ, PaginationSession.applyAll]
    have hstep : (PaginationSession.applyNav now ⟨N, .active i, la, ttl⟩ .prev).1
        = ⟨N, .active (max (i - 1) 0), now, ttl⟩ := rfl
    rw [hstep, ih (max (i - 1) 0) now]
    congr 1
    omega

/-- C3: in an `Active` session over `N ≥ 1` pages, `Next` clamps the index to
`min(i+1, N-1)` and `Prev` to `max(i-1, 0)` with no error at either boundary;
hence after any sequence of events the index stays in `[0, N-1]`, `N+5`
`Next` events from page 0 end on index `N-1`, and `N+5` `Prev` events from
the last page end on index 0. -/
theorem pagination_clamp_c3 (N i la ttl now : Nat) (hN : 1 ≤ N) (hi : i ≤ N - 1)
    (events : List (Nat × NavEvent)) :
    (PaginationSession.applyNav now ⟨N, .active i, la, ttl⟩ .next).1.state
      = .active (min (i + 1) (N - 1)) ∧
    (PaginationSession.applyNav now ⟨N, .active i, la, ttl⟩ .prev).1.state
      = .active (max (i - 1) 0) ∧
    (PaginationSession.applyAll ⟨N, .active i, la, ttl⟩ events).inRange ∧
    (PaginationSession.applyAll ⟨N, .active 0, la, ttl⟩
        (List.replicate (N + 5) (now, .next))).state = .active (N - 1) ∧
    (PaginationSession.applyAll ⟨N, .active (N - 1), la, ttl⟩
        (List.replicate (N + 5) (now, .prev))).state = .active 0 := by
  refine ⟨rfl, rfl, ?_, ?_, ?_⟩
  · exact applyAll_inRange events N la ttl (.active i) hi
  · rw [applyAll_replicate_next N now ttl (N + 5) 0 la (by omega)]
    congr 1
    omega
  · rw [applyAll_replicate_prev N now ttl (N + 5) (N - 1) la]
    congr 1
    omega

theorem pagination_clamp_c3_witness :
    (1 : Nat) ≤ 3 ∧ (0 : Nat) ≤ 3 - 1 ∧
    (PaginationSession.applyAll ⟨3, .active 0, 0, 60⟩
        (List.replicate 8 (5, .next))).state = .active 2 ∧
    (PaginationSession.applyAll ⟨3, .active 2, 0, 60⟩
        (List.replicate 8 (5, .prev))).state = .active 0 := by
  have h := pagination_clamp_c3 3 0 0 60 5 (by omega) (by omega) []
  have h2 := pagination_clamp_c3 3 2 0 60 5 (by omega) (by omega) []
  exact ⟨by omega, by omega, h.2.2.2.1, h2.2.2.2.2⟩

/-- C4: an `Active` session that receives no transitions for more than its
ttl becomes `Expired` once the timeout fires, and from then on every further
`Next`/`Prev`, at any time, is a no-op: the session (hence `current_index`)
is unchanged and no re-render happens — including over whole sequences of
further events. -/
theorem pagination_expiry_c4 (s : PaginationSession) (i : Nat) (now : Nat)
    (hactive : s.state = .active i) (hlate : s.lastActivity + s.ttl < now) :
    (s.timeout now).state = .expired ∧
    (∀ (e : NavEvent) (n : Nat),
      (s.timeout now).applyNav n e = (s.timeout now, false)) ∧
    (∀ l : List (Nat × NavEvent), (s.timeout now).applyAll l = s.timeout now) := by
  have htime : s.timeout now = { s with state := .expired } := by
    rw [PaginationSession.timeout, hactive]
    simp [hlate]
  have hstate : (s.timeout now).state = .expired := by rw [htime]
  have hnav : ∀ (e : NavEvent) (n : Nat),
      (s.timeout now).applyNav n e = (s.timeout now, false) := by
    intro e n
    rw [PaginationSession.applyNav, hstate]
  refine ⟨hstate, hnav, ?_⟩
  intro l
  induction l with
  | nil => rfl
  | cons e rest ih => rw [PaginationSession.applyAll, hnav e.2 e.1, ih]

theorem pagination_expiry_c4_witness :
    (⟨3, .active 1, 0, 60⟩ : PaginationSession).lastActivity + 60 < 100 ∧
    ((⟨3, .active 1, 0, 60⟩ : PaginationSession).timeout 100).state = .expired ∧
    ((⟨3, .active 1, 0, 60⟩ : PaginationSession).timeout 100).applyNav 101 .next
      = ((⟨3, .active 1, 0, 60⟩ : PaginationSession).timeout 100, false) := by
  have h := pagination_expiry_c4 ⟨3, .active 1, 0, 60⟩ 1 100 rfl (by decide)
  exact ⟨by decide, h.1, h.2.1 .next 101⟩

/-! Evaluation lemmas for `MALClient.getReq`. -/

theorem asyncGet_not_found (now : Nat) (s : Store) (k : String)
    (h : storeLookup s k = Option.none) :
    AsyncTTLCache.get now s k = (PyVal.none, s) := by
  simp [AsyncTTLCache.get, h]

theorem getReq_200 (c : MALClient) (upstream : Upstream) (now : Nat)
    (st : ClientState) (path : String) (params : List (String × String))
    (cc : Store) (body : PyVal)
    (hmiss : AsyncTTLCache.get now st.cache
        (requestCacheKey (c.baseUrl ++ path) params) = (PyVal.none, cc))
    (hup : upstream (c.baseUrl ++ path) params = (200, body)) :
    c.getReq upstream now st path params
      = (Except.ok body,
         { cache := AsyncTTLCache.set now c.defaultTtl cc
             (requestCacheKey (c.baseUrl ++ path) params) body,
           calls := st.calls ++ [(c.baseUrl ++ path, params)] }) := by
  simp only [MALClient.getReq, hmiss, hup, PyVal.isNone, Bool.not_true,
    Bool.false_eq_true, if_false, if_true]

theorem getReq_hit (c : MALClient) (upstream : Upstream) (now : Nat)
    (st : ClientState) (path : String) (params : List (String × String))
    (v : PyVal)
    (hhit : AsyncTTLCache.get now st.cache
        (requestCacheKey (c.baseUrl ++ path) params) = (v, st.cache))
    (hv : v.isNone = false) :
    c.getReq upstream now st path params = (Except.ok v, st) := by
  simp only [MALClient.getReq, hhit, hv, Bool.not_false, if_true]

theorem getReq_err (c : MALClient) (upstream : Upstream) (now : Nat)
    (st : ClientState) (path : String) (params : List (String × String))
    (cc : Store) (status : Nat) (body : PyVal)
    (hmiss : AsyncTTLCache.get now st.cache
        (requestCacheKey (c.baseUrl ++ path) params) = (PyVal.none, cc))
    (hup : upstream (c.baseUrl ++ path) params = (status, body))
    (h200 : status ≠ 200) (h204 : status ≠ 204) :
    c.getReq upstream now st path params
      = (Except.error
           ⟨status, "Bad response (" ++ toString status ++ "): " ++ pyText body⟩,
         { cache := cc, calls := st.calls ++ [(c.baseUrl ++ path, params)] }) := by
  simp only [MALClient.getReq, hmiss, hup, PyVal.isNone, Bool.not_true,
    Bool.false_eq_true, if_false, if_neg h200, if_neg h204]

/-- A numeric identifier goes straight to the `/{kind}/{id}` fetch. -/
theorem info_numeric (c : MALClient) (upstream : Upstream) (now fuel : Nat)
    (st : ClientState) (n : Int) (kind fields : String) :
    c.info upstream now (Nat.succ fuel) st (PyVal.pyInt n) kind fields
      = c.getReq upstream now st ("/" ++ kind ++ "/" ++ toString n) [("fields", fields)] := by
  simp [MALClient.info, identNumeric]

/-- A non-numeric identifier whose `limit=1` search returns the standard
envelope recurses into `info` on the extracted id. -/
theorem info_resolves_id (c : MALClient) (upstream : Upstream) (now fuel : Nat)
    (st st1 : ClientState) (name kind fields : String) (id : Int)
    (hname : identNumeric (PyVal.pyStr name) = Option.none)
    (hid : id ≠ 0)
    (hsearch : c.search upstream now st kind name 1 0 fields
      = (Except.ok (searchEnvelope id), st1)) :
    c.info upstream now (Nat.succ fuel) st (PyVal.pyStr name) kind fields
      = c.info upstream now fuel st1 (PyVal.pyInt id) kind fields := by
  simp only [MALClient.info, hname, pyQueryStr, hsearch]
  simp [searchEnvelope, PyVal.truthy, PyVal.isDict, PyVal.getKey, PyVal.getKeyD,
    pyIndex0, pyOr, pyAnd, List.find?, hid]

/-! ## Claim theorems about the client and the handlers -/

/-- C2: resolving a non-numeric identifier searches with `limit=1`, recurses
into fetch-by-id on the first hit's id (a numeric identifier goes straight to
fetch-by-id, last conjunct), and both steps are cached: the first resolve
issues exactly the one search call and the one by-id call recorded below, and
a second resolve of the same identifier within the ttl window returns the
cached record with the client state unchanged — no further upstream calls. -/
theorem resolve_cached_c2 (c : MALClient) (upstream : Upstream)
    (name kind fields : String) (id : Int) (detailBody : PyVal)
    (now1 now2 fuel : Nat)
    (hname : identNumeric (PyVal.pyStr name) = Option.none)
    (hid : id ≠ 0)
    (hup1 : upstream (c.baseUrl ++ ("/" ++ kind))
        [("q", name), ("limit", toString (1 : Int)), ("offset", toString (0 : Int)),
         ("fields", fields)]
      = (200, searchEnvelope id))
    (hup2 : upstream (c.baseUrl ++ ("/" ++ kind ++ "/" ++ toString id))
        [("fields", fields)] = (200, detailBody))
    (hdet : detailBody.isNone = false)
    (hkeys : requestCacheKey (c.baseUrl ++ ("/" ++ kind))
        [("q", name), ("limit", toString (1 : Int)), ("offset", toString (0 : Int)),
         ("fields", fields)]
      ≠ requestCacheKey (c.baseUrl ++ ("/" ++ kind ++ "/" ++ toString id))
          [("fields", fields)])
    (hwin : now2 < now1 + c.defaultTtl) :
    (c.info upstream now1 (Nat.succ (Nat.succ fuel)) ⟨[], []⟩
        (PyVal.pyStr name) kind fields).1 = Except.ok detailBody ∧
    (c.info upstream now1 (Nat.succ (Nat.succ fuel)) ⟨[], []⟩
        (PyVal.pyStr name) kind fields).2.calls
      = [(c.baseUrl ++ ("/" ++ kind),
          [("q", name), ("limit", toString (1 : Int)), ("offset", toString (0 : Int)),
           ("fields", fields)]),
         (c.baseUrl ++ ("/" ++ kind ++ "/" ++ toString id), [("fields", fields)])] ∧
    c.info upstream now2 (Nat.succ (Nat.succ fuel))
        (c.info upstream now1 (Nat.succ (Nat.succ fuel)) ⟨[], []⟩
          (PyVal.pyStr name) kind fields).2
        (PyVal.pyStr name) kind fields
      = (Except.ok detailBody,
         (c.info upstream now1 (Nat.succ (Nat.succ fuel)) ⟨[], []⟩
           (PyVal.pyStr name) kind fields).2) ∧
    (∀ (n : Int) (st : ClientState),
      c.info upstream now1 (Nat.succ fuel) st (PyVal.pyInt n) kind fields
        = c.getReq upstream now1 st ("/" ++ kind ++ "/" ++ toString n)
            [("fields", fields)]) := by
  have hne : requestCacheKey (c.baseUrl ++ ("/" ++ kind))
      [("q", name), ("limit", toString (1 : Int)), ("offset", toString (0 : Int)),
       ("fields", fields)]
    ≠ requestCacheKey (c.baseUrl ++ ("/" ++ kind ++ "/" ++ toString id))
        [("fields", fields)] := hkeys
  -- state after the first search call (one entry cached, one call logged)
  have h1 : c.search upstream now1 ⟨[], []⟩ kind name 1 0 fields
      = (Except.ok (searchEnvelope id),
         ⟨[(requestCacheKey (c.baseUrl ++ ("/" ++ kind))
              [("q", name), ("limit", toString (1 : Int)), ("offset", toString (0 : Int)),
               ("fields", fields)],
            now1 + c.defaultTtl, searchEnvelope id)],
          [(c.baseUrl ++ ("/" ++ kind),
            [("q", name), ("limit", toString (1 : Int)), ("offset", toString (0 : Int)),
             ("fields", fields)])]⟩) := by
    rw [MALClient.search,
      getReq_200 c upstream now1 ⟨[], []⟩ ("/" ++ kind)
        [("q", name), ("limit", toString (1 : Int)), ("offset", toString (0 : Int)),
         ("fields", fields)]
        [] (searchEnvelope id) rfl hup1]
    simp [AsyncTTLCache.set, storePop]
  -- state after the first by-id call (both entries cached, both calls logged)
  have h2 : c.getReq upstream now1
      ⟨[(requestCacheKey (c.baseUrl ++ ("/" ++ kind))
           [("q", name), ("limit", toString (1 : Int)), ("offset", toString (0 : Int)),
            ("fields", fields)],
         now1 + c.defaultTtl, searchEnvelope id)],
       [(c.baseUrl ++ ("/" ++ kind),
         [("q", name), ("limit", toString (1 : Int)), ("offset", toString (0 : Int)),
          ("fields", fields)])]⟩
      ("/" ++ kind ++ "/" ++ toString id) [("fields", fields)]
      = (Except.ok detailBody,
         ⟨[(requestCacheKey (c.baseUrl ++ ("/" ++ kind ++ "/" ++ toString id))
              [("fields", fields)],
            now1 + c.defaultTtl, detailBody),
           (requestCacheKey (c.baseUrl ++ ("/" ++ kind))
              [("q", name), ("limit", toString (1 : Int)), ("offset", toString (0 : Int)),
               ("fields", fields)],
            now1 + c.defaultTtl, searchEnvelope id)],
          [(c.baseUrl ++ ("/" ++ kind),
            [("q", name), ("limit", toString (1 : Int)), ("offset", toString (0 : Int)),
             ("fields", fields)]),
           (c.baseUrl ++ ("/" ++ kind ++ "/" ++ toString id), [("fields", fields)])]⟩) := by
    rw [getReq_200 c upstream now1 _ ("/" ++ kind ++ "/" ++ toString id)
        [("fields", fields)] _ detailBody
        (asyncGet_not_found now1 _ _ (by simp [storeLookup, hne])) hup2]
    simp [AsyncTTLCache.set, storePop, hne]
  -- the whole first resolve
  have hinfo1 : c.info upstream now1 (Nat.succ (Nat.succ fuel)) ⟨[], []⟩
      (PyVal.pyStr name) kind fields
      = (Except.ok detailBody,
         ⟨[(requestCacheKey (c.baseUrl ++ ("/" ++ kind ++ "/" ++ toString id))
              [("fields", fields)],
            now1 + c.defaultTtl, detailBody),
           (requestCacheKey (c.baseUrl ++ ("/" ++ kind))
              [("q", name), ("limit", toString (1 : Int)), ("offset", toString (0 : Int)),
               ("fields", fields)],
            now1 + c.defaultTtl, searchEnvelope id)],
          [(c.baseUrl ++ ("/" ++ kind),
            [("q", name), ("limit", toString (1 : Int)), ("offset", toString (0 : Int)),
             ("fields", fields)]),
           (c.baseUrl ++ ("/" ++ kind ++ "/" ++ toString id), [("fields", fields)])]⟩) := by
    rw [info_resolves_id c upstream now1 (Nat.succ fuel) ⟨[], []⟩ _ name kind fields id
        hname hid h1,
      info_numeric, h2]
  -- the second resolve: search layer served from cache, state unchanged
  have h4 : c.search upstream now2
      (⟨[(requestCacheKey (c.baseUrl ++ ("/" ++ kind ++ "/" ++ toString id))
            [("fields", fields)],
          now1 + c.defaultTtl, detailBody),
         (requestCacheKey (c.baseUrl ++ ("/" ++ kind))
            [("q", name), ("limit", toString (1 : Int)), ("offset", toString (0 : Int)),
             ("fields", fields)],
          now1 + c.defaultTtl, searchEnvelope id)],
        [(c.baseUrl ++ ("/" ++ kind),
          [("q", name), ("limit", toString (1 : Int)), ("offset", toString (0 : Int)),
           ("fields", fields)]),
         (c.baseUrl ++ ("/" ++ kind ++ "/" ++ toString id), [("fields", fields)])]⟩ :
        ClientState) kind name 1 0 fields
      = (Except.ok (searchEnvelope id),
         ⟨[(requestCacheKey (c.baseUrl ++ ("/" ++ kind ++ "/" ++ toString id))
              [("fields", fields)],
            now1 + c.defaultTtl, detailBody),
           (requestCacheKey (c.baseUrl ++ ("/" ++ kind))
              [("q", name), ("limit", toString (1 : Int)), ("offset", toString (0 : Int)),
               ("fields", fields)],
            now1 + c.defaultTtl, searchEnvelope id)],
          [(c.baseUrl ++ ("/" ++ kind),
            [("q", name), ("limit", toString (1 : Int)), ("offset", toString (0 : Int)),
             ("fields", fields)]),
           (c.baseUrl ++ ("/" ++ kind ++ "/" ++ toString id), [("fields", fields)])]⟩) := by
    rw [MALClient.search,
      getReq_hit c upstream now2 _ ("/" ++ kind)
        [("q", name), ("limit", toString (1 : Int)), ("offset", toString (0 : Int)),
         ("fields", fields)]
        (searchEnvelope id)
        (by simp [AsyncTTLCache.get, storeLookup, Ne.symm hne, hwin]) rfl]
  -- the second resolve end to end
  have h5 : c.info upstream now2 (Nat.succ (Nat.succ fuel))
      (⟨[(requestCacheKey (c.baseUrl ++ ("/" ++ kind ++ "/" ++ toString id))
            [("fields", fields)],
          now1 + c.defaultTtl, detailBody),
         (requestCacheKey (c.baseUrl ++ ("/" ++ kind))
            [("q", name), ("limit", toString (1 : Int)), ("offset", toString (0 : Int)),
             ("fields", fields)],
          now1 + c.defaultTtl, searchEnvelope id)],
        [(c.baseUrl ++ ("/" ++ kind),
          [("q", name), ("limit", toString (1 : Int)), ("offset", toString (0 : Int)),
           ("fields", fields)]),
         (c.baseUrl ++ ("/" ++ kind ++ "/" ++ toString id), [("fields", fields)])]⟩ :
        ClientState)
      (PyVal.pyStr name) kind fields
      = (Except.ok detailBody,
         ⟨[(requestCacheKey (c.baseUrl ++ ("/" ++ kind ++ "/" ++ toString id))
              [("fields", fields)],
            now1 + c.defaultTtl, detailBody),
           (requestCacheKey (c.baseUrl ++ ("/" ++ kind))
              [("q", name), ("limit", toString (1 : Int)), ("offset", toString (0 : Int)),
               ("fields", fields)],
            now1 + c.defaultTtl, searchEnvelope id)],
          [(c.baseUrl ++ ("/" ++ kind),
            [("q", name), ("limit", toString (1 : Int)), ("offset", toString (0 : Int)),
             ("fields", fields)]),
           (c.baseUrl ++ ("/" ++ kind ++ "/" ++ toString id), [("fields", fields)])]⟩) := by
    rw [info_resolves_id c upstream now2 (Nat.succ fuel) _ _ name kind fields id
        hname hid h4,
      info_numeric,
      getReq_hit c upstream now2 _ ("/" ++ kind ++ "/" ++ toString id)
        [("fields", fields)] detailBody
        (by simp [AsyncTTLCache.get, storeLookup, hwin]) hdet]
  refine ⟨by rw [hinfo1], by rw [hinfo1], ?_, ?_⟩
  · rw [hinfo1]
    exact h5
  · intro n st
    exact info_numeric c upstream now1 fuel st n kind fields

theorem resolve_cached_c2_witness :
    (MALClient.info ⟨"b", 60⟩
        (fun url _ => if url = "b/anime" then (200, searchEnvelope 20)
                      else (200, PyVal.pyDict [("id", PyVal.pyInt 20)]))
        0 (Nat.succ (Nat.succ 0)) ⟨[], []⟩ (PyVal.pyStr "naruto") "anime" "f").1
      = Except.ok (PyVal.pyDict [("id", PyVal.pyInt 20)]) ∧
    (MALClient.info ⟨"b", 60⟩
        (fun url _ => if url = "b/anime" then (200, searchEnvelope 20)
                      else (200, PyVal.pyDict [("id", PyVal.pyInt 20)]))
        0 (Nat.succ (Nat.succ 0)) ⟨[], []⟩ (PyVal.pyStr "naruto") "anime" "f").2.calls.length
      = 2 ∧
    MALClient.info ⟨"b", 60⟩
        (fun url _ => if url = "b/anime" then (200, searchEnvelope 20)
                      else (200, PyVal.pyDict [("id", PyVal.pyInt 20)]))
        30 (Nat.succ (Nat.succ 0))
        (MALClient.info ⟨"b", 60⟩
          (fun url _ => if url = "b/anime" then (200, searchEnvelope 20)
                        else (200, PyVal.pyDict [("id", PyVal.pyInt 20)]))
          0 (Nat.succ (Nat.succ 0)) ⟨[], []⟩ (PyVal.pyStr "naruto") "anime" "f").2
        (PyVal.pyStr "naruto") "anime" "f"
      = (Except.ok (PyVal.pyDict [("id", PyVal.pyInt 20)]),
         (MALClient.info ⟨"b", 60⟩
           (fun url _ => if url = "b/anime" then (200, searchEnvelope 20)
                         else (200, PyVal.pyDict [("id", PyVal.pyInt 20)]))
           0 (Nat.succ (Nat.succ 0)) ⟨[], []⟩ (PyVal.pyStr "naruto") "anime" "f").2) := by
  have h := resolve_cached_c2 ⟨"b", 60⟩
    (fun url _ => if url = "b/anime" then (200, searchEnvelope 20)
                  else (200, PyVal.pyDict [("id", PyVal.pyInt 20)]))
    "naruto" "anime" "f" 20 (PyVal.pyDict [("id", PyVal.pyInt 20)]) 0 30 0
    (by decide) (by decide) rfl rfl rfl (by decide) (by decide)
  refine ⟨h.1, ?_, h.2.2.1⟩
  rw [h.2.1]
  rfl

/-- C5 (amended): on any upstream status other than 200/204 the client does
not return a typed per-kind result: it raises a single exception type
carrying the status code and body text, and the command layer's
`safe_mal_call` catches every exception and collapses it to a uniform absent
result (no crash, but also no classification crossing into the handlers). -/
theorem client_error_c5 (c : MALClient) (upstream : Upstream) (now : Nat)
    (st : ClientState) (path : String) (params : List (String × String))
    (cc : Store) (status : Nat) (body : PyVal)
    (hmiss : AsyncTTLCache.get now st.cache
        (requestCacheKey (c.baseUrl ++ path) params) = (PyVal.none, cc))
    (hup : upstream (c.baseUrl ++ path) params = (status, body))
    (h200 : status ≠ 200) (h204 : status ≠ 204) :
    (c.getReq upstream now st path params).1
      = Except.error
          ⟨status, "Bad response (" ++ toString status ++ "): " ++ pyText body⟩ ∧
    safeMalCall (c.getReq upstream now st path params).1 = Option.none := by
  rw [getReq_err c upstream now st path params cc status body hmiss hup h200 h204]
  exact ⟨rfl, rfl⟩

/-- C5 counterexample: at the concrete inputs below, an `unauthorized` (401)
and a `rate_limited` (429) upstream response both leave the client as a raised
`ClientResponseError` (a raw exception, not a typed result), and after
`safe_mal_call` the command handler receives the identical value `None` for
both — no classification into distinct kinds ever reaches the handlers. -/
theorem client_error_c5_counterexample :
    (MALClient.getReq ⟨"b", 60⟩ (fun _ _ => (401, PyVal.pyStr "unauthorized")) 0
        ⟨[], []⟩ "/anime" [("q", "naruto")]).1
      = Except.error ⟨401, "Bad response (401): unauthorized"⟩ ∧
    safeMalCall (MALClient.getReq ⟨"b", 60⟩
        (fun _ _ => (401, PyVal.pyStr "unauthorized")) 0
        ⟨[], []⟩ "/anime" [("q", "naruto")]).1
      = safeMalCall (MALClient.getReq ⟨"b", 60⟩
        (fun _ _ => (429, PyVal.pyStr "rate limited")) 0
        ⟨[], []⟩ "/anime" [("q", "naruto")]).1 ∧
    safeMalCall (MALClient.getReq ⟨"b", 60⟩
        (fun _ _ => (401, PyVal.pyStr "unauthorized")) 0
        ⟨[], []⟩ "/anime" [("q", "naruto")]).1 = Option.none := by
  exact ⟨rfl, rfl, rfl⟩

theorem client_error_c5_witness :
    (MALClient.getReq ⟨"b", 60⟩ (fun _ _ => (500, PyVal.pyStr "boom")) 0
        ⟨[], []⟩ "/anime" [("q", "naruto")]).1
      = Except.error ⟨500, "Bad response (500): boom"⟩ ∧
    safeMalCall (MALClient.getReq ⟨"b", 60⟩ (fun _ _ => (500, PyVal.pyStr "boom")) 0
        ⟨[], []⟩ "/anime" [("q", "naruto")]).1 = Option.none := by
  exact client_error_c5 ⟨"b", 60⟩ (fun _ _ => (500, PyVal.pyStr "boom")) 0 ⟨[], []⟩
    "/anime" [("q", "naruto")] [] 500 (PyVal.pyStr "boom") rfl rfl
    (by omega) (by omega)

/-- C6 (amended): `MALClient.search` passes the caller's limit through to the
upstream request unmodified; the clamp `max(1, min(15, limit))` lives only in
certain bot command handlers (anime/manga/top/trending/season/nextseason),
whose computed limit always lies in `[1, 15]`. -/
theorem search_limit_c6 (l : Option Int) (d : Int) (c : MALClient)
    (upstream : Upstream) (now : Nat) (kind query fields : String)
    (limit offset : Int) :
    1 ≤ botClampLimit l d ∧ botClampLimit l d ≤ 15 ∧
    (c.search upstream now ⟨[], []⟩ kind query limit offset fields).2.calls
      = [(c.baseUrl ++ ("/" ++ kind),
          [("q", query), ("limit", toString limit), ("offset", toString offset),
           ("fields", fields)])] := by
  refine ⟨le_max_left 1 _, ?_, ?_⟩
  · exact max_le (by omega) (min_le_left 15 (l.getD d))
  · rw [MALClient.search]
    simp only [MALClient.getReq, asyncGet_not_found now [] _ rfl, PyVal.isNone,
      Bool.not_true, Bool.false_eq_true, if_false]
    rcases upstream (c.baseUrl ++ ("/" ++ kind))
      [("q", query), ("limit", toString limit), ("offset", toString offset),
       ("fields", fields)] with ⟨s, b⟩
    by_cases h2 : s = 200
    · simp [h2]
    · by_cases h4 : s = 204 <;> simp [h2, h4]

/-- C6 counterexample: a search with `limit = 100` issues the upstream request
with `limit=100`, far outside the documented 10–15 maximum — `MALClient.search`
performs no clamping at all. -/
theorem search_limit_c6_counterexample :
    (MALClient.search ⟨"b", 60⟩ (fun _ _ => (200, PyVal.pyDict [])) 0 ⟨[], []⟩
        "anime" "naruto" 100 0 "f").2.calls
      = [("b/anime", [("q", "naruto"), ("limit", "100"), ("offset", "0"),
                      ("fields", "f")])] ∧
    ¬((100 : Int) ≤ 15) := by
  exact ⟨rfl, by omega⟩

/-- C8 (amended): only the `/anime` and `/manga` handlers check the upstream
credential: with the credential unset or empty they return a
configuration-missing error and never reach the client; the other
API-dependent handlers such as `/top` perform no credential check and attempt
the upstream call regardless. -/
theorem missing_credential_c8 (cred : Option String)
    (h : credTruthy cred = false) (kind : String) :
    animeCommandAction cred
      = BotAction.configErrorMsg "MAL_CLIENT_ID not configured. Add it to your .env." ∧
    mangaCommandAction cred = BotAction.configErrorMsg "MAL_CLIENT_ID not configured." ∧
    topCommandAction cred kind = BotAction.upstreamAttempt ("/" ++ kind ++ "/ranking") := by
  refine ⟨?_, ?_, rfl⟩
  · simp [animeCommandAction, h]
  · simp [mangaCommandAction, h]

/-- C8 counterexample: `/top` with the credential entirely absent still
attempts the upstream ranking call instead of returning a
configuration-missing error. -/
theorem missing_credential_c8_counterexample :
    topCommandAction Option.none "anime" = BotAction.upstreamAttempt "/anime/ranking" ∧
    BotAction.upstreamAttempt "/anime/ranking"
      ≠ BotAction.configErrorMsg "MAL_CLIENT_ID not configured. Add it to your .env." := by
  exact ⟨rfl, by decide⟩

theorem missing_credential_c8_witness :
    credTruthy Option.none = false ∧
    animeCommandAction Option.none
      = BotAction.configErrorMsg "MAL_CLIENT_ID not configured. Add it to your .env." := by
  exact ⟨rfl, (missing_credential_c8 Option.none rfl "anime").1⟩

end AniLumina
